import Mathlib

/-!
Verification development for the `web-3d-viewer` repository.

The repository's only source file, `src/client/src/app/libs/player/Player3D.js`,
defines a single class `Player3D` wrapping three.js.  We embed its state and
operations shallowly: JS numbers become `ℚ` (every numeric expression in the
source is exact in the rationals and the embedded expressions are literally the
source's expressions, so no floating-point rounding question arises for the
properties below), JS object fields that may be read before their first
assignment become `Option ℚ` (with `none` standing for JS `undefined`), and the
single-threaded callback semantics of the browser event loop is embedded as
explicit action traces and explicit state-transformer functions.

Collaborators imported from files of this repository that are not available
under `src/` (`./EventEmitter`, `./OBJLoader`, `./MTLLoader`) are modelled from
the specification, as marked on their definitions; `LoadingManager` comes from
the external npm package `three` and is modelled from its documented API.
-/

namespace Player3DSpec

/-- A child node attached to the DOM container.  The only child this code ever
appends is the renderer's canvas (`this.renderer.domElement`). -/
inductive DomChild
| rendererDom
deriving DecidableEq, Repr

/-- The DOM container element handed to the constructor.
`attrHeightVal` records the JS value of `this.height` interpolated into the
`setAttribute("style", "display:block; height:" + this.height + "px")` call and
`styleHeightVal` the value interpolated into `this.container.style.height =
this.height + "px"`; `none` is JS `undefined` (the string written is then
`"undefinedpx"`). -/
structure Container where
  offsetWidth : ℚ
  styleDisplay : String
  attrHeightVal : Option ℚ
  styleHeightVal : Option ℚ
  children : List DomChild
deriving DecidableEq, Repr

/-- Modelled from the spec: the `EventEmitter` collaborator (imported from
`./EventEmitter`, a repository file not under `src/`) per spec §4.1
(EventChannel): `subscribe` appends a callback to the event's ordered
subscriber list; `emit` synchronously invokes every subscriber registered for
that event, in registration order.  Callbacks are identified by a number; each
`emit` is logged together with the list of callback ids it invoked. -/
structure EventEmitter where
  subs : List (String × ℕ)
  emitLog : List (String × List ℕ)
deriving DecidableEq, Repr

def EventEmitter.new : EventEmitter := ⟨[], []⟩

def EventEmitter.subscribe (e : EventEmitter) (name : String) (cb : ℕ) : EventEmitter :=
  { e with subs := e.subs ++ [(name, cb)] }

def EventEmitter.emit (e : EventEmitter) (name : String) : EventEmitter :=
  { e with emitLog := e.emitLog ++ [(name, (e.subs.filter (fun s => s.1 == name)).map (fun s => s.2))] }

/-- Number of emissions of event `name` recorded by the emitter. -/
def EventEmitter.emitCount (e : EventEmitter) (name : String) : ℕ :=
  (e.emitLog.filter (fun x => x.1 == name)).length

/-- Total number of subscriber callbacks that were invoked by emissions of
event `name` (a subscriber "observes" an emission exactly when its callback id
appears in that emission's invocation list). -/
def EventEmitter.deliveredCount (e : EventEmitter) (name : String) : ℕ :=
  ((e.emitLog.filter (fun x => x.1 == name)).map (fun x => x.2.length)).sum

/-- The perspective camera (three.js `PerspectiveCamera`), restricted to the
fields this code touches. -/
structure Camera where
  fov : ℚ
  aspect : ℚ
  near : ℚ
  far : ℚ
  positionZ : ℚ
  hasPointLight : Bool
  projectionUpdates : ℕ
deriving DecidableEq, Repr

/-- A loaded 3D model (the object handed to the `OBJLoader` success callback):
its `position.y` and its geometry's axis-aligned bounding box in y, expressed
relative to `position.y = 0` (three's `Box3.setFromObject` returns the
world-space box, i.e. the geometry box translated by the current position). -/
structure Model3D where
  posY : ℚ
  geomMinY : ℚ
  geomMaxY : ℚ
deriving DecidableEq, Repr

/-- World-space bounding-box minimum y, as `Box3.setFromObject` computes it. -/
def Model3D.worldMinY (m : Model3D) : ℚ := m.posY + m.geomMinY

/-- World-space bounding-box maximum y. -/
def Model3D.worldMaxY (m : Model3D) : ℚ := m.posY + m.geomMaxY

/-- `objectSize.y` as produced by `box.getSize(objectSize)`. -/
def Model3D.bboxSizeY (m : Model3D) : ℚ := m.worldMaxY - m.worldMinY

/-- Vertical center of the world-space bounding box. -/
def Model3D.bboxCenterY (m : Model3D) : ℚ := (m.worldMinY + m.worldMaxY) / 2

/-- A top-level node of the three.js scene graph as this code populates it. -/
inductive SceneObj
| ambientLight (color : ℕ) (intensity : ℚ)
| cameraObj
| model (m : Model3D)
deriving DecidableEq, Repr

/-- The `TrackballControls` collaborator, restricted to the fields this code
assigns and the operations it calls. -/
structure Control where
  rotateSpeed : ℚ
  zoomSpeed : ℚ
  panSpeed : ℚ
  noZoom : Bool
  noPan : Bool
  staticMoving : Bool
  dynamicDampingFactor : ℚ
  resetCount : ℕ
deriving DecidableEq, Repr

def Control.reset (c : Control) : Control := { c with resetCount := c.resetCount + 1 }

/-- The `WebGLRenderer`, restricted to what this code touches. -/
structure Renderer where
  pixelRatio : ℚ
  width : ℚ
  height : ℚ
deriving DecidableEq, Repr

/-- The self-rescheduling render loop, seen through the platform scheduler:
`pending` counts the continuations currently scheduled through the
`requestAnimationFrame(() => setTimeout(Player3D._runContext(context), 1000/fps))`
composition, `ticksRun` the number of `_runContext` bodies executed so far. -/
structure LoopState where
  pending : ℕ
  ticksRun : ℕ
deriving DecidableEq, Repr

/-- One execution of the body returned by `Player3D._runContext`: it first
schedules the next tick (one more pending continuation), then runs the render
logic. -/
def LoopState.runContextBody (s : LoopState) : LoopState :=
  { pending := s.pending + 1, ticksRun := s.ticksRun + 1 }

/-- `start() { Player3D._runContext(this)(); }`: invoke the loop body once,
immediately. -/
def LoopState.start (s : LoopState) : LoopState := s.runContextBody

/-- The platform event loop fires one scheduled continuation, if any: the
continuation is consumed and the body runs (which schedules its successor). -/
def LoopState.dispatchOne (s : LoopState) : LoopState :=
  match s.pending with
  | 0 => s
  | n + 1 => LoopState.runContextBody { s with pending := n }

/-- The full `Player3D` instance state.  `height` is `Option ℚ` because the
constructor reads `this.height` before its first assignment (JS `undefined`,
here `none`). -/
structure Player3D where
  emitter : EventEmitter
  container : Container
  fps : ℚ
  aspectRatio : ℚ
  width : ℚ
  height : Option ℚ
  center : ℚ × ℚ
  mouse : ℚ × ℚ
  camera : Camera
  scene : List SceneObj
  control : Control
  renderer : Renderer
  loop : LoopState
  mouseMoveListenerAdded : Bool
  resizeListenerAdded : Bool
deriving DecidableEq, Repr

/-- The `Player3D` constructor, statement by statement (source lines 24–74).
`dom` is the `domElement` argument; `devicePixelRatio` stands for
`window.devicePixelRatio`. -/
def Player3D.new (dom : Container) (devicePixelRatio : ℚ) : Player3D :=
  -- this._eventEmitter = new EventEmitter();
  let emitter0 := EventEmitter.new
  -- this.fps = 25; this.aspectRatio = 16 / 9;
  let fps : ℚ := 25
  let aspectRatio : ℚ := 16 / 9
  -- this.width = this.container.offsetWidth;
  let width := dom.offsetWidth
  -- let height = this.width / this.aspectRatio;   (a local variable)
  let heightLocal := width / aspectRatio
  -- At this point the FIELD this.height has never been assigned: it is undefined.
  let heightFieldBefore : Option ℚ := none
  -- this.container.setAttribute("style","display:block; height:" + this.height + "px");
  -- this.container.style.height = this.height + "px";
  let container1 : Container :=
    { dom with styleDisplay := "block",
               attrHeightVal := heightFieldBefore,
               styleHeightVal := heightFieldBefore }
  -- this.height = height;
  let heightField : Option ℚ := some heightLocal
  -- this.center = { x: this.width / 2, y: this.height / 2 };
  let center := (width / 2, heightLocal / 2)
  -- this.mouse = { x: this.center.x, y: this.center.y };
  let mouse := center
  -- this.camera = new PerspectiveCamera(45, this.width / this.height, 1, 2500);
  -- this.camera.position.z = 250;  ... later: this.camera.add(pointLight);
  let camera : Camera :=
    { fov := 45, aspect := width / heightLocal, near := 1, far := 2500,
      positionZ := 250, hasPointLight := true, projectionUpdates := 0 }
  -- this.scene = new Scene(); this.scene.add(ambientLight); ... this.scene.add(this.camera);
  let scene : List SceneObj := [SceneObj.ambientLight 0xcccccc (2/5), SceneObj.cameraObj]
  -- this.control = new TrackballControls(this.camera, this.container); ... tuning
  let control : Control :=
    { rotateSpeed := 5, zoomSpeed := 16/5, panSpeed := 4/5,
      noZoom := false, noPan := true, staticMoving := false,
      dynamicDampingFactor := 1/5, resetCount := 0 }
  -- this.renderer = new WebGLRenderer(); setPixelRatio; setSize(this.width, this.height);
  let renderer : Renderer := { pixelRatio := devicePixelRatio, width := width, height := heightLocal }
  -- this.container.appendChild(this.renderer.domElement);
  let container2 := { container1 with children := container1.children ++ [DomChild.rendererDom] }
  -- document.addEventListener('mousemove', ...); window.addEventListener('resize', ...);
  -- this._eventEmitter.emit("loaded");
  { emitter := emitter0.emit "loaded",
    container := container2,
    fps := fps, aspectRatio := aspectRatio,
    width := width, height := heightField,
    center := center, mouse := mouse,
    camera := camera, scene := scene, control := control, renderer := renderer,
    loop := ⟨0, 0⟩,
    mouseMoveListenerAdded := true, resizeListenerAdded := true }

/-- The handler returned by `Player3D.onElementResize(context)` (source lines
141–161), fired with the container's newly measured `offsetWidth`. -/
def Player3D.onElementResize (s : Player3D) (newOffsetWidth : ℚ) : Player3D :=
  -- context.width = context.container.offsetWidth;
  let width := newOffsetWidth
  -- let height = context.width / context.aspectRatio;
  let heightLocal := width / s.aspectRatio
  -- context.container.setAttribute("style","display:block; height:" + context.height + "px");
  -- context.container.style.height = context.height + "px";   (reads the OLD field value)
  let container1 : Container :=
    { s.container with offsetWidth := newOffsetWidth,
                       styleDisplay := "block",
                       attrHeightVal := s.height,
                       styleHeightVal := s.height }
  -- context.height = height;
  let heightField : Option ℚ := some heightLocal
  -- context.center = { x: context.width / 2, y: context.height / 2 };
  let center := (width / 2, heightLocal / 2)
  -- while (context.container.firstChild) removeChild; renderer.setSize; appendChild
  let container2 := { container1 with children := [] }
  let renderer1 := { s.renderer with width := width, height := heightLocal }
  let container3 := { container2 with children := container2.children ++ [DomChild.rendererDom] }
  -- context.camera.aspect = context.width / context.height; updateProjectionMatrix();
  let camera1 := { s.camera with aspect := width / heightLocal,
                                 projectionUpdates := s.camera.projectionUpdates + 1 }
  { s with container := container3, width := width, height := heightField,
           center := center, renderer := renderer1, camera := camera1 }

/-- A concrete container of measured width 1600 used to instantiate universally
quantified theorems below. -/
def demoContainer : Container :=
  { offsetWidth := 1600, styleDisplay := "", attrHeightVal := none,
    styleHeightVal := none, children := [] }

/-- C1: after construction the stored `height` field is the container width
divided by `16/9` (and the fixed aspect-ratio field is `16/9`), and on any
player whose aspect-ratio field is `16/9` (as every constructed player's is,
since nothing ever reassigns it) a resize event recomputes the stored height
as the newly measured width divided by `16/9`. -/
theorem c1_height_invariant (dom : Container) (dpr : ℚ) (w : ℚ)
    (hW : 0 < dom.offsetWidth) (hw : 0 < w) (s : Player3D)
    (hA : s.aspectRatio = 16 / 9) :
    (Player3D.new dom dpr).height = some (dom.offsetWidth / (16 / 9)) ∧
    (Player3D.new dom dpr).aspectRatio = 16 / 9 ∧
    (s.onElementResize w).height = some (w / (16 / 9)) := by
  refine ⟨rfl, rfl, ?_⟩
  show some (w / s.aspectRatio) = some (w / (16 / 9))
  rw [hA]

/-- Witness for `c1_height_invariant` at width 1600 (resize to 800). -/
theorem c1_height_invariant_witness :
    ((0 : ℚ) < demoContainer.offsetWidth ∧ (0 : ℚ) < 800 ∧
      (Player3D.new demoContainer 1).aspectRatio = 16 / 9) ∧
    ((Player3D.new demoContainer 1).height = some (demoContainer.offsetWidth / (16 / 9)) ∧
      (Player3D.new demoContainer 1).aspectRatio = 16 / 9 ∧
      ((Player3D.new demoContainer 1).onElementResize 800).height = some (800 / (16 / 9))) := by
  refine ⟨⟨by norm_num [demoContainer], by norm_num, rfl⟩, ?_⟩
  exact c1_height_invariant demoContainer 1 800 (by norm_num [demoContainer]) (by norm_num)
    (Player3D.new demoContainer 1) rfl

/-- The success-callback body shared by `loadObj` (lines 97–100) and `loadMTL`
(lines 124–127): `box = new Box3().setFromObject(object); box.getSize(objectSize);
object.position.y -= objectSize.y / 2;`. -/
def Model3D.centerShift (m : Model3D) : Model3D :=
  { m with posY := m.posY - m.bboxSizeY / 2 }

/-- Modelled from the spec: the `OBJLoader` collaborator (imported from
`./OBJLoader`, a repository file not under `src/`) per spec §6 supplies an
asynchronous `load(url, onSuccess, onProgress, onError)`; on success it hands
the parsed object to `onSuccess`.  This function is the state effect of the
`loadObj` success callback (source lines 97–104) applied to the loaded object
`obj`: shift it down by half its bounding-box height, add it to the scene,
reset the controls, emit `model-loaded`. -/
def Player3D.loadObjSuccess (s : Player3D) (obj : Model3D) : Player3D :=
  let obj1 := obj.centerShift
  { s with scene := s.scene ++ [SceneObj.model obj1],
           control := s.control.reset,
           emitter := s.emitter.emit "model-loaded" }

/-- Modelled from the spec: the `MTLLoader`/`OBJLoader` collaborators as for
`Player3D.loadObjSuccess`.  State effect of the innermost `loadMTL` success
callback (source lines 124–131); the source duplicates the `loadObj` callback
body verbatim. -/
def Player3D.loadMTLSuccess (s : Player3D) (obj : Model3D) : Player3D :=
  let obj1 := obj.centerShift
  { s with scene := s.scene ++ [SceneObj.model obj1],
           control := s.control.reset,
           emitter := s.emitter.emit "model-loaded" }

/-- The handler returned by `Player3D.onDocumentMouseMove(context)` (source
lines 167–172). -/
def Player3D.onDocumentMouseMove (s : Player3D) (clientX clientY : ℚ) : Player3D :=
  { s with mouse := ((clientX - s.center.1) / 2, (clientY - s.center.2) / 2) }

/-- Registering a callback through the public `events` getter (which returns
`this._eventEmitter.subscriber`). -/
def Player3D.subscribeEvent (s : Player3D) (name : String) (cb : ℕ) : Player3D :=
  { s with emitter := s.emitter.subscribe name cb }

/-- `start() { Player3D._runContext(this)(); }` (source line 178). -/
def Player3D.startPlayer (s : Player3D) : Player3D := { s with loop := s.loop.start }

/-- `show()` (source lines 180–182): `this.container.style.display = 'inherit'`. -/
def Player3D.showPlayer (s : Player3D) : Player3D :=
  { s with container := { s.container with styleDisplay := "inherit" } }

/-- `hide()` (source lines 184–186): `this.container.style.display = 'none'`. -/
def Player3D.hidePlayer (s : Player3D) : Player3D :=
  { s with container := { s.container with styleDisplay := "none" } }

/-- C4: both style writes in the constructor interpolate the still-unassigned
`this.height` (JS `undefined`, here `none`), while the computed
`width / aspectRatio` value is stored into `this.height` only afterwards; in
particular the value used by the first layout write differs from the computed
height stored in the field. -/
theorem c4_stale_style_write (dom : Container) (dpr : ℚ) :
    (Player3D.new dom dpr).container.attrHeightVal = none ∧
    (Player3D.new dom dpr).container.styleHeightVal = none ∧
    (Player3D.new dom dpr).height = some (dom.offsetWidth / (16 / 9)) ∧
    (Player3D.new dom dpr).container.styleHeightVal ≠ (Player3D.new dom dpr).height := by
  refine ⟨rfl, rfl, rfl, fun h => Option.noConfusion h⟩

/-- C8: for a positive construction width the camera's aspect ratio is exactly
`16/9`, and a resize event with a positive newly measured width leaves the
aspect ratio at `16/9` on any player whose fixed aspect-ratio field is `16/9`
(every constructed player's is). -/
theorem c8_camera_aspect (dom : Container) (dpr w : ℚ)
    (hW : 0 < dom.offsetWidth) (hw : 0 < w) (s : Player3D)
    (hA : s.aspectRatio = 16 / 9) :
    (Player3D.new dom dpr).camera.aspect = 16 / 9 ∧
    (s.onElementResize w).camera.aspect = 16 / 9 := by
  constructor
  · show dom.offsetWidth / (dom.offsetWidth / (16 / 9)) = 16 / 9
    have hne : dom.offsetWidth ≠ 0 := ne_of_gt hW
    field_simp
    ring
  · show w / (w / s.aspectRatio) = 16 / 9
    rw [hA]
    have hne : w ≠ 0 := ne_of_gt hw
    field_simp
    ring

/-- Witness for `c8_camera_aspect`: width 1600 gives height 900 and aspect
`16/9`; a resize to width 800 gives height 450 and the same aspect `16/9`. -/
theorem c8_camera_aspect_witness :
    ((0 : ℚ) < demoContainer.offsetWidth ∧ (0 : ℚ) < 800 ∧
      (Player3D.new demoContainer 1).height = some 900 ∧
      ((Player3D.new demoContainer 1).onElementResize 800).height = some 450) ∧
    ((Player3D.new demoContainer 1).camera.aspect = 16 / 9 ∧
      ((Player3D.new demoContainer 1).onElementResize 800).camera.aspect = 16 / 9) := by
  refine ⟨⟨by norm_num [demoContainer], by norm_num,
    by show some ((1600 : ℚ) / (16 / 9)) = some 900; norm_num,
    by show some ((800 : ℚ) / (16 / 9)) = some 450; norm_num⟩, ?_⟩
  exact c8_camera_aspect demoContainer 1 800 (by norm_num [demoContainer]) (by norm_num)
    (Player3D.new demoContainer 1) rfl

/-- C9: `show()` and `hide()` write only the container's display style; the
scene graph, camera, renderer (including its size), event emitter, controls,
viewport fields, loop state and the container's children and measured width
are all unchanged. -/
theorem c9_show_hide_only_visibility (s : Player3D) :
    ((s.showPlayer).scene = s.scene ∧ (s.showPlayer).camera = s.camera ∧
      (s.showPlayer).renderer = s.renderer ∧ (s.showPlayer).emitter = s.emitter ∧
      (s.showPlayer).control = s.control ∧ (s.showPlayer).width = s.width ∧
      (s.showPlayer).height = s.height ∧ (s.showPlayer).center = s.center ∧
      (s.showPlayer).mouse = s.mouse ∧ (s.showPlayer).loop = s.loop ∧
      (s.showPlayer).fps = s.fps ∧ (s.showPlayer).aspectRatio = s.aspectRatio ∧
      (s.showPlayer).container.children = s.container.children ∧
      (s.showPlayer).container.offsetWidth = s.container.offsetWidth ∧
      (s.showPlayer).container.styleDisplay = "inherit") ∧
    ((s.hidePlayer).scene = s.scene ∧ (s.hidePlayer).camera = s.camera ∧
      (s.hidePlayer).renderer = s.renderer ∧ (s.hidePlayer).emitter = s.emitter ∧
      (s.hidePlayer).control = s.control ∧ (s.hidePlayer).width = s.width ∧
      (s.hidePlayer).height = s.height ∧ (s.hidePlayer).center = s.center ∧
      (s.hidePlayer).mouse = s.mouse ∧ (s.hidePlayer).loop = s.loop ∧
      (s.hidePlayer).fps = s.fps ∧ (s.hidePlayer).aspectRatio = s.aspectRatio ∧
      (s.hidePlayer).container.children = s.container.children ∧
      (s.hidePlayer).container.offsetWidth = s.container.offsetWidth ∧
      (s.hidePlayer).container.styleDisplay = "none") :=
  ⟨⟨rfl, rfl, rfl, rfl, rfl, rfl, rfl, rfl, rfl, rfl, rfl, rfl, rfl, rfl, rfl⟩,
   ⟨rfl, rfl, rfl, rfl, rfl, rfl, rfl, rfl, rfl, rfl, rfl, rfl, rfl, rfl, rfl⟩⟩

/-- A concrete loaded model whose world bounding box is `[2, 4]` in y. -/
def demoModel : Model3D := { posY := 0, geomMinY := 2, geomMaxY := 4 }

/-- The demo player after a successful `loadObj` of `demoModel`. -/
def demoLoadedPlayer : Player3D := (Player3D.new demoContainer 1).loadObjSuccess demoModel

/-- C2 counterexample: loading a model whose bounding box is `[2, 4]` in y does
add exactly one node and emit exactly one `model-loaded`, but the inserted
node's bounding-box vertical center ends at `y = 2`, not `y = 0`: the claim's
centering conjunct is false for this input. -/
theorem c2_counterexample :
    demoLoadedPlayer.scene.length = (Player3D.new demoContainer 1).scene.length + 1 ∧
    demoLoadedPlayer.emitter.emitCount "model-loaded" = 1 ∧
    demoLoadedPlayer.scene.getLast? = some (SceneObj.model demoModel.centerShift) ∧
    demoModel.centerShift.bboxCenterY = 2 ∧
    ¬ demoModel.centerShift.bboxCenterY = 0 :=
  ⟨rfl, rfl, rfl,
   by norm_num [demoModel, Model3D.centerShift, Model3D.bboxCenterY, Model3D.worldMinY,
     Model3D.worldMaxY, Model3D.bboxSizeY],
   by norm_num [demoModel, Model3D.centerShift, Model3D.bboxCenterY, Model3D.worldMinY,
     Model3D.worldMaxY, Model3D.bboxSizeY]⟩

/-- C2 amended: after a successful `loadObj` the scene contains exactly one new
top-level node and exactly one additional `model-loaded` emission, and the new
node has been shifted down by half its bounding-box height, so its bounding-box
vertical center equals the original bounding box's minimum y — it lies at
`y = 0` precisely when the loaded asset's bounding box had minimum y `0`. -/
theorem c2_load_obj_effect (s : Player3D) (obj : Model3D) :
    (s.loadObjSuccess obj).scene = s.scene ++ [SceneObj.model obj.centerShift] ∧
    (s.loadObjSuccess obj).scene.length = s.scene.length + 1 ∧
    (s.loadObjSuccess obj).emitter.emitCount "model-loaded" =
      s.emitter.emitCount "model-loaded" + 1 ∧
    obj.centerShift.bboxCenterY = obj.worldMinY ∧
    (obj.centerShift.bboxCenterY = 0 ↔ obj.worldMinY = 0) := by
  have hcenter : obj.centerShift.bboxCenterY = obj.worldMinY := by
    simp only [Model3D.centerShift, Model3D.bboxCenterY, Model3D.worldMinY,
      Model3D.worldMaxY, Model3D.bboxSizeY]
    ring
  refine ⟨rfl, by simp [Player3D.loadObjSuccess], ?_, hcenter, by rw [hcenter]⟩
  simp [Player3D.loadObjSuccess, EventEmitter.emitCount, EventEmitter.emit,
    List.filter_append]

/-- Primitive actions of the single-threaded event-loop semantics, used to
embed the callback ordering of `loadObj`, `loadMTL` and `_runContext`. -/
inductive Action
| mtlLoadCall (url : String)
| mtlLoadDone
| materialsPreload
| objLoadCall (url : String) (withMaterials : Bool)
| objLoadDone
| centerShiftAct
| sceneAddAct
| controlResetAct
| emitAct (name : String)
| logTo (sink : String)
| scheduleNext (delayMs : ℚ)
| controlUpdate
| cameraLookAtSceneOrigin
| renderCall
deriving DecidableEq, Repr

def Action.isMtlDone : Action → Bool
  | Action.mtlLoadDone => true
  | _ => false

def Action.isPreload : Action → Bool
  | Action.materialsPreload => true
  | _ => false

def Action.isObjCall : Action → Bool
  | Action.objLoadCall _ _ => true
  | _ => false

def Action.isEmit : Action → Bool
  | Action.emitAct _ => true
  | _ => false

def Action.isLog : Action → Bool
  | Action.logTo _ => true
  | _ => false

def Action.isRender : Action → Bool
  | Action.renderCall => true
  | _ => false

/-- Index of the first action satisfying `p`, if any. -/
def firstIdx (p : Action → Bool) : List Action → Option ℕ
  | [] => none
  | a :: rest => if p a then some 0 else (firstIdx p rest).map (fun n => n + 1)

/-- The external three.js `LoadingManager`, per its documented API: constructed
with no arguments, its `onLoad`, `onProgress` and `onError` fields are all
unassigned (JS `undefined`, here `none`).  A callback value is named by the
logging sink it writes to. -/
structure LoadingManager where
  onLoadCb : Option String
  onProgressCb : Option String
  onErrorCb : Option String
deriving DecidableEq, Repr

def LoadingManager.new : LoadingManager := ⟨none, none, none⟩

/-- The manager built in `loadObj` (source lines 91–92): `new LoadingManager()`
then `manager.onProgress = console.log`; `manager.onError` is never assigned. -/
def loadObjManager : LoadingManager :=
  { LoadingManager.new with onProgressCb := some "console.log" }

/-- The manager built in `loadMTL` (source lines 115–116), identical wiring. -/
def loadMTLManager : LoadingManager :=
  { LoadingManager.new with onProgressCb := some "console.log" }

/-- Invoking a JS callback value: a function logs to its sink; an `undefined`
callback is invoked by the loaders only after an `if (onError)`-style guard
(three.js loader behaviour), so nothing runs. -/
def invokeJsCallback (cb : Option String) : List Action :=
  match cb with
  | some sink => [Action.logTo sink]
  | none => []

/-- The actions `loadObj(url)` performs synchronously before returning to its
caller: it only issues the asynchronous geometry load (lines 94–95); every
callback runs in a later event-loop turn. -/
def loadObjSyncActions (url : String) : List Action := [Action.objLoadCall url false]

/-- The actions `loadMTL(objUrl, mtlUrl)` performs synchronously before
returning: it only issues the asynchronous material load (lines 118–119). -/
def loadMTLSyncActions (mtlUrl : String) : List Action := [Action.mtlLoadCall mtlUrl]

/-- Event-loop trace of a `loadObj(url)` call whose geometry load succeeds
(source lines 88–105): the load is issued, completes, and the success callback
centers the object, adds it to the scene, resets the controls and emits
`model-loaded`. -/
def loadObjSuccessTrace (url : String) : List Action :=
  [Action.objLoadCall url false, Action.objLoadDone, Action.centerShiftAct,
   Action.sceneAddAct, Action.controlResetAct, Action.emitAct "model-loaded"]

/-- Event-loop trace of a `loadObj(url)` call whose geometry load fails: the
loader invokes the error callback it was given, namely `manager.onError`
(line 104), which was never assigned. -/
def loadObjFailureTrace (url : String) : List Action :=
  loadObjSyncActions url ++ invokeJsCallback loadObjManager.onErrorCb

/-- Event-loop trace of a `loadMTL(objUrl, mtlUrl)` call in which both loads
succeed (source lines 112–134): the material load is issued and completes; its
completion callback synchronously preloads the materials and only then issues
the geometry load bound to them; the geometry success callback is the same
center/add/reset/emit sequence as in `loadObj`. -/
def loadMTLSuccessTrace (objUrl mtlUrl : String) : List Action :=
  [Action.mtlLoadCall mtlUrl, Action.mtlLoadDone, Action.materialsPreload,
   Action.objLoadCall objUrl true, Action.objLoadDone, Action.centerShiftAct,
   Action.sceneAddAct, Action.controlResetAct, Action.emitAct "model-loaded"]

/-- Trace of a `loadMTL` call whose material load fails: `loader.load(mtlUrl,
callback)` (line 119) passes no progress or error callback at all, so nothing
runs. -/
def loadMTLMaterialFailureTrace (mtlUrl : String) : List Action :=
  loadMTLSyncActions mtlUrl ++ invokeJsCallback none

/-- Trace of a `loadMTL` call whose material load succeeds but whose geometry
load fails: the error callback passed at line 131 is `manager.onError`, never
assigned. -/
def loadMTLObjFailureTrace (objUrl mtlUrl : String) : List Action :=
  [Action.mtlLoadCall mtlUrl, Action.mtlLoadDone, Action.materialsPreload,
   Action.objLoadCall objUrl true] ++ invokeJsCallback loadMTLManager.onErrorCb

/-- One execution of the body returned by `Player3D._runContext` (source lines
202–212), as an ordered action trace: first schedule the next tick through
`requestAnimationFrame` composed with a `setTimeout` of `1000 / fps`
milliseconds, then `control.update()`, then `camera.lookAt(scene.position)`,
then one `renderer.render(scene, camera)` call. -/
def runContextTickTrace (fps : ℚ) : List Action :=
  [Action.scheduleNext (1000 / fps), Action.controlUpdate,
   Action.cameraLookAtSceneOrigin, Action.renderCall]

/-- Number of render calls in a trace. -/
def countRenderCalls (t : List Action) : ℕ := (t.filter Action.isRender).length

/-- The complete member list of the `Player3D` class, read off the source. -/
def player3DMethodNames : List String :=
  ["constructor", "events", "loadObj", "loadMTL", "onElementResize",
   "onDocumentMouseMove", "start", "show", "hide", "_log", "_runContext"]

theorem LoopState.dispatchOne_pending (t : LoopState) (h : 1 ≤ t.pending) :
    t.dispatchOne.pending = t.pending := by
  rcases t with ⟨p, r⟩
  cases p with
  | zero => simp at h
  | succ n => rfl

theorem iterate_dispatch_pending (k : ℕ) (t : LoopState) (h : 1 ≤ t.pending) :
    (LoopState.dispatchOne^[k] t).pending = t.pending := by
  induction k generalizing t with
  | zero => rfl
  | succ n ih =>
      rw [Function.iterate_succ_apply]
      rw [ih t.dispatchOne (by rw [LoopState.dispatchOne_pending t h]; exact h),
        LoopState.dispatchOne_pending t h]

/-- C3: in the success trace of `loadMTL`, the material loader's completion
(index 1) runs strictly before the geometry load is issued (index 3), with the
synchronous material preload strictly between them (index 2); and from the
moment the geometry load is issued the remaining sequence coincides with the
geometry-only load's (completion, centering, scene insertion, control reset,
`model-loaded` emission) — indeed the two success callbacks have identical
state effect. -/
theorem c3_material_before_geometry (objUrl mtlUrl : String) (s : Player3D) (obj : Model3D) :
    firstIdx Action.isMtlDone (loadMTLSuccessTrace objUrl mtlUrl) = some 1 ∧
    firstIdx Action.isPreload (loadMTLSuccessTrace objUrl mtlUrl) = some 2 ∧
    firstIdx Action.isObjCall (loadMTLSuccessTrace objUrl mtlUrl) = some 3 ∧
    (loadMTLSuccessTrace objUrl mtlUrl).drop 3 =
      Action.objLoadCall objUrl true :: (loadObjSuccessTrace objUrl).drop 1 ∧
    s.loadMTLSuccess obj = s.loadObjSuccess obj :=
  ⟨rfl, rfl, rfl, rfl, rfl⟩

/-- C5 counterexample: from a fresh loop state, one `start()` leaves one
self-rescheduling continuation pending, but a second `start()` leaves two, and
after any number of event-loop dispatches (three shown) there are still two:
double invocation does produce two concurrent self-rescheduling loops. -/
theorem c5_counterexample :
    ((⟨0, 0⟩ : LoopState).start).pending = 1 ∧
    ((⟨0, 0⟩ : LoopState).start.start).pending = 2 ∧
    (((((⟨0, 0⟩ : LoopState).start.start).dispatchOne).dispatchOne).dispatchOne).pending = 2 ∧
    ¬ ((⟨0, 0⟩ : LoopState).start.start).pending = 1 :=
  ⟨rfl, rfl, rfl, by decide⟩

/-- C5 amended: `start()` has no double-invocation guard — each call runs the
loop body once and thereby schedules one more self-rescheduling continuation,
so two `start()` calls leave two concurrent render loops, and every later
event-loop dispatch preserves that count forever. -/
theorem c5_double_start_two_loops (s : LoopState) (k : ℕ) :
    s.start.start.pending = s.pending + 2 ∧
    (LoopState.dispatchOne^[k] s.start.start).pending = s.pending + 2 := by
  refine ⟨?_, ?_⟩
  · show s.pending + 1 + 1 = s.pending + 2
    omega
  · rw [iterate_dispatch_pending k s.start.start
      (by simp [LoopState.start, LoopState.runContextBody])]
    show s.pending + 1 + 1 = s.pending + 2
    omega

/-- C6: a constructed player has `fps = 25`; each tick of the running loop
first schedules the next tick through the animation callback composed with a
timer of fixed delay `1000 / fps = 40` milliseconds, then updates the controls,
then points the camera at the scene origin, then performs exactly one render
call; the class exposes no `stop` member, and once started the loop keeps at
least one scheduled continuation alive through every event-loop dispatch. -/
theorem c6_tick_order_and_no_stop (dom : Container) (dpr : ℚ) (s : LoopState) (k : ℕ) :
    (Player3D.new dom dpr).fps = 25 ∧
    runContextTickTrace (Player3D.new dom dpr).fps =
      [Action.scheduleNext 40, Action.controlUpdate,
       Action.cameraLookAtSceneOrigin, Action.renderCall] ∧
    countRenderCalls (runContextTickTrace (Player3D.new dom dpr).fps) = 1 ∧
    player3DMethodNames.contains "stop" = false ∧
    1 ≤ (LoopState.dispatchOne^[k] s.start).pending := by
  refine ⟨rfl, ?_, rfl, by decide, ?_⟩
  · show runContextTickTrace 25 = _
    norm_num [runContextTickTrace]
  · rw [iterate_dispatch_pending k s.start (by simp [LoopState.start, LoopState.runContextBody])]
    simp [LoopState.start, LoopState.runContextBody]

/-- C7 counterexample: on a failing geometry load, the error callback this core
handed to the loader is the manager's never-assigned `onError` (`none`), so the
failure trace contains no logging action at all — the error is not forwarded to
any logging sink. -/
theorem c7_counterexample :
    loadObjManager.onErrorCb = none ∧
    (loadObjFailureTrace "model.obj").filter Action.isLog = [] ∧
    loadObjFailureTrace "model.obj" = [Action.objLoadCall "model.obj" false] :=
  ⟨rfl, rfl, rfl⟩

/-- C7 amended: on every load failure no exception reaches the caller (the
calls are fire-and-forget: the failure trace extends the synchronous call
actions only by later-turn callback actions) and no event of any kind is
emitted; but nothing is forwarded to a logging sink either — the geometry
loads pass the manager's never-assigned `onError` as error callback and the
material load passes no error callback at all. -/
theorem c7_failure_silent_and_unlogged (objUrl mtlUrl : String) :
    loadObjManager.onErrorCb = none ∧
    loadMTLManager.onErrorCb = none ∧
    loadObjFailureTrace objUrl = loadObjSyncActions objUrl ++ invokeJsCallback none ∧
    loadMTLMaterialFailureTrace mtlUrl = loadMTLSyncActions mtlUrl ++ invokeJsCallback none ∧
    (loadObjFailureTrace objUrl).filter Action.isEmit = [] ∧
    (loadObjFailureTrace objUrl).filter Action.isLog = [] ∧
    (loadMTLMaterialFailureTrace mtlUrl).filter Action.isEmit = [] ∧
    (loadMTLMaterialFailureTrace mtlUrl).filter Action.isLog = [] ∧
    (loadMTLObjFailureTrace objUrl mtlUrl).filter Action.isEmit = [] ∧
    (loadMTLObjFailureTrace objUrl mtlUrl).filter Action.isLog = [] :=
  ⟨rfl, rfl, rfl, rfl, rfl, rfl, rfl, rfl, rfl, rfl⟩

/-- Everything external code can do to a `Player3D` after its constructor has
returned, through its public surface: subscribe a callback through the `events`
getter, complete a `loadObj`/`loadMTL` load, call `start()`, `show()` or
`hide()`, or deliver a browser resize or mouse-move event.  The instance — and
hence the `events` getter — is reachable only once the constructor has
returned, so every subscription is one of these post-construction operations. -/
inductive PublicOp
| subscribeOp (name : String) (cb : ℕ)
| loadObjOk (obj : Model3D)
| loadMTLOk (obj : Model3D)
| startOp
| showOp
| hideOp
| resizeOp (newWidth : ℚ)
| mouseMoveOp (clientX clientY : ℚ)
deriving DecidableEq, Repr

def applyOp (op : PublicOp) (s : Player3D) : Player3D :=
  match op with
  | PublicOp.subscribeOp name cb => s.subscribeEvent name cb
  | PublicOp.loadObjOk obj => s.loadObjSuccess obj
  | PublicOp.loadMTLOk obj => s.loadMTLSuccess obj
  | PublicOp.startOp => s.startPlayer
  | PublicOp.showOp => s.showPlayer
  | PublicOp.hideOp => s.hidePlayer
  | PublicOp.resizeOp w => s.onElementResize w
  | PublicOp.mouseMoveOp cx cy => s.onDocumentMouseMove cx cy

def applyOps (ops : List PublicOp) (s : Player3D) : Player3D :=
  ops.foldl (fun t op => applyOp op t) s

theorem EventEmitter.deliveredCount_emit_ne (e : EventEmitter) (n m : String)
    (h : (n == m) = false) : (e.emit n).deliveredCount m = e.deliveredCount m := by
  simp [EventEmitter.emit, EventEmitter.deliveredCount, List.filter_append, h]

theorem applyOp_deliveredCount_loaded (op : PublicOp) (s : Player3D) :
    (applyOp op s).emitter.deliveredCount "loaded" =
      s.emitter.deliveredCount "loaded" := by
  cases op with
  | subscribeOp name cb => rfl
  | loadObjOk obj =>
      exact EventEmitter.deliveredCount_emit_ne s.emitter "model-loaded" "loaded" (by decide)
  | loadMTLOk obj =>
      exact EventEmitter.deliveredCount_emit_ne s.emitter "model-loaded" "loaded" (by decide)
  | startOp => rfl
  | showOp => rfl
  | hideOp => rfl
  | resizeOp w => rfl
  | mouseMoveOp cx cy => rfl

theorem applyOps_deliveredCount_loaded (ops : List PublicOp) (s : Player3D) :
    (applyOps ops s).emitter.deliveredCount "loaded" =
      s.emitter.deliveredCount "loaded" := by
  induction ops generalizing s with
  | nil => rfl
  | cons op rest ih =>
      show (applyOps rest (applyOp op s)).emitter.deliveredCount "loaded" = _
      rw [ih (applyOp op s), applyOp_deliveredCount_loaded op s]

/-- C10: the constructor's emitter log shows exactly one `loaded` emission,
recorded before the constructor returns, and it was delivered to the empty
subscriber list; and after any sequence of post-construction public operations
(including subscriptions to `loaded` through the `events` getter) the total
number of callback invocations delivered for `loaded` is still zero — no
subscriber registered through the public interface ever observes a `loaded`
emission. -/
theorem c10_loaded_never_observed (dom : Container) (dpr : ℚ) (ops : List PublicOp) :
    (Player3D.new dom dpr).emitter.emitLog = [("loaded", [])] ∧
    (applyOps ops (Player3D.new dom dpr)).emitter.deliveredCount "loaded" = 0 := by
  refine ⟨rfl, ?_⟩
  rw [applyOps_deliveredCount_loaded ops (Player3D.new dom dpr)]
  rfl

end Player3DSpec
